import Mathlib

/- Verification development for the weather agent repository: a shallow
   embedding of the dual wind/rain checking agent (package agent, together
   with the weather data types it consumes) and proofs about it.

   Modelling conventions:
   - Go machine integers are modelled as ℤ (no overflow is reachable at the
     magnitudes involved: probabilities, hours, day counts).
   - Go float64 wind directions and speeds are modelled as ℚ; the float to
     int conversion int(x) truncates toward zero and is modelled exactly.
   - time.Time values carrying only a calendar date are modelled as ℤ days
     since the Unix epoch; (d + 4) mod 7 is the Go weekday number
     (Sunday = 0, ..., Saturday = 6), since 1970-01-01 was a Thursday.
   - Instants in the scheduler are modelled as ℤ minutes; a timezone is a
     step function of offsets with a single transition, which covers both
     UTC (constant 0) and Europe/London around one DST change.
   - fmt.Sprintf calls are modelled by explicit string concatenation; the
     float verb %4.0f is modelled as round half to even, as the Go
     formatter does.
   - Console output, the LLM call and the Telegram call inside one cycle
     are modelled as an explicit effect list; the scheduling console
     messages around the sleep are not part of any claim and are omitted. -/

/-! ## String formatting helpers (fmt.Sprintf padding verbs) -/

def padLeft (w : ℕ) (s : String) : String :=
  String.mk (List.replicate (w - s.length) ' ') ++ s

def padRight (w : ℕ) (s : String) : String :=
  s ++ String.mk (List.replicate (w - s.length) ' ')

def pad02 (n : ℤ) : String :=
  if n < 10 then "0" ++ toString n else toString n

/-! ## Calendar (time.Time date-only values, modelled as epoch days) -/

/-- Go weekday number of an epoch day: Sunday = 0, ..., Saturday = 6. -/
def goWeekday (d : ℤ) : ℤ := (d + 4) % 7

/-- Civil date (year, month, day-of-month) of an epoch day, by the standard
Gregorian conversion used by time.Time. -/
def civilFromDays (d : ℤ) : ℤ × ℤ × ℤ :=
  let z := d + 719468
  let era := z / 146097
  let doe := z - era * 146097
  let yoe := (doe - doe / 1460 + doe / 36524 - doe / 146096) / 365
  let doy := doe - (365 * yoe + yoe / 4 - yoe / 100)
  let mp := (5 * doy + 2) / 153
  let dom := doy - (153 * mp + 2) / 5 + 1
  let m := mp + (if mp < 10 then 3 else -9)
  (yoe + era * 400 + (if m ≤ 2 then 1 else 0), m, dom)

def monthName (m : ℤ) : String :=
  if m = 1 then "Jan" else if m = 2 then "Feb" else if m = 3 then "Mar"
  else if m = 4 then "Apr" else if m = 5 then "May" else if m = 6 then "Jun"
  else if m = 7 then "Jul" else if m = 8 then "Aug" else if m = 9 then "Sep"
  else if m = 10 then "Oct" else if m = 11 then "Nov" else "Dec"

def weekdayName (w : ℤ) : String :=
  if w = 0 then "Sun" else if w = 1 then "Mon" else if w = 2 then "Tue"
  else if w = 3 then "Wed" else if w = 4 then "Thu" else if w = 5 then "Fri"
  else "Sat"

/-- Date.Format with layout string Mon 02 Jan. -/
def formatMon02Jan (d : ℤ) : String :=
  weekdayName (goWeekday d) ++ " " ++ pad02 (civilFromDays d).2.2 ++ " " ++
    monthName (civilFromDays d).2.1

/-! ## Wind domain data model (internal/weather ForecastDay) -/

structure ForecastDay where
  Date : ℤ
  WindSpeedMax : ℚ
  WindGustMax : ℚ
  WindDirMean : ℚ

/-- The Go conversion int(x) on a float64: truncation toward zero. -/
def goTrunc (q : ℚ) : ℤ := if 0 ≤ q then ⌊q⌋ else -⌊-q⌋

/-- The normalisation both degToCompass and isEasterly perform:
float64(int(deg+360) % 360), kept as the integer value (the comparisons
against 0 and 180 are unaffected by the conversion back to float64). -/
def goNormDeg (deg : ℚ) : ℤ := (goTrunc (deg + 360)).tmod 360

/-- isEasterly from the agent: wind is from the east. -/
def isEasterly (deg : ℚ) : Bool :=
  decide (0 < goNormDeg deg ∧ goNormDeg deg < 180)

/-- degToCompass from the agent: E or W, what matters for flight paths. -/
def degToCompass (deg : ℚ) : String :=
  if 0 < goNormDeg deg ∧ goNormDeg deg < 180 then "E" else "W"

/-- countEasterlyDays: the Go loop with a running counter. -/
def countEasterlyDays (days : List ForecastDay) : ℕ :=
  days.foldl (fun c d => if isEasterly d.WindDirMean then c + 1 else c) 0

/-- buildEasterlyAnalysis: dominant direction summary line. -/
def buildEasterlyAnalysis (days : List ForecastDay) : String :=
  let eastCount := countEasterlyDays days
  let westCount := days.length - eastCount
  let dominant :=
    if westCount < eastCount then "E ✈️"
    else if eastCount < westCount then "W"
    else "Mixed"
  "Dominant: " ++ dominant ++ " | East: " ++ toString eastCount ++
    " days | West: " ++ toString westCount ++ " days\n"

/-- The %.0f rounding of the Go formatter: round half to even. -/
def goRoundEven (q : ℚ) : ℤ :=
  if q - ⌊q⌋ < 1/2 then ⌊q⌋
  else if 1/2 < q - ⌊q⌋ then ⌊q⌋ + 1
  else if ⌊q⌋ % 2 = 0 then ⌊q⌋ else ⌊q⌋ + 1

/-- One row of buildForecastTable: "%s | %4.0f | %-3s |%s\n". -/
def windRow (day : ForecastDay) : String :=
  let eastMarker := if isEasterly day.WindDirMean then " ✈️" else "   "
  formatMon02Jan day.Date ++ " | " ++
    padLeft 4 (toString (goRoundEven day.WindSpeedMax)) ++ " | " ++
    padRight 3 (degToCompass day.WindDirMean) ++ " |" ++ eastMarker ++ "\n"

/-- buildForecastTable from the agent (wind table). -/
def buildForecastTable (days : List ForecastDay) : String :=
  "Date       | Wind | Dir | East\n" ++
    "-----------+------+-----+-----\n" ++
    String.join (days.map windRow)

/-! ## Rain domain data model (internal/weather RainForecast) -/

structure RainForecast where
  Date : ℤ
  PrecipProb : ℤ
  MorningRainProb : List ℤ
  AfternoonProb : List ℤ

/-- The maximum-scanning loop shared by getHourProb and getPickupProb:
visit indices i with lo ≤ i ≤ hi, skipping i < 0 and stopping at the
array length, keeping the running maximum started at 0. -/
def windowMaxZ (l : List ℤ) (lo hi : ℤ) : ℤ :=
  ((List.range l.length).filter (fun (i : ℕ) => decide (lo ≤ (i:ℤ) ∧ (i:ℤ) ≤ hi))).foldl
    (fun m (i : ℕ) => if m < l.getD i 0 then l.getD i 0 else m) 0

/-- getHourProb from the agent. MorningRainProb covers hours 6..10 at
indices 0..4. -/
def getHourProb (day : RainForecast) (startHour endHour : ℤ) : ℤ :=
  if day.MorningRainProb.length = 0 then day.PrecipProb
  else
    let maxProb := windowMaxZ day.MorningRainProb (startHour - 6) (endHour - 6)
    if maxProb = 0 then day.PrecipProb else maxProb

/-- getPickupProb from the agent. AfternoonProb covers hours 15..18 at
indices 0..3; Wednesday (Go weekday 3) is the early pickup day. -/
def getPickupProb (day : RainForecast) (weekday : ℤ) : ℤ :=
  if day.AfternoonProb.length = 0 then day.PrecipProb
  else
    let maxProb :=
      if weekday = 3 then windowMaxZ day.AfternoonProb 0 1
      else windowMaxZ day.AfternoonProb 2 3
    if maxProb = 0 then day.PrecipProb else maxProb

/-- analyzeSchoolRun from the agent: verbal summary for the first day. -/
def analyzeSchoolRun (days : List RainForecast) : String :=
  match days with
  | [] => "No forecast data"
  | today :: _ =>
    let weekday := goWeekday today.Date
    if weekday = 6 ∨ weekday = 0 then "📅 Weekend - no school!"
    else
      let dropProb := getHourProb today 8 9
      let pickProb := getPickupProb today weekday
      let pickTime := if weekday = 3 then "15:15-16" else "17-18"
      let dropLine :=
        if 70 ≤ dropProb then
          "☔ DROP-OFF (8-9am): " ++ toString dropProb ++ "% - Umbrella!\n"
        else if 30 ≤ dropProb then
          "🌦️ DROP-OFF (8-9am): " ++ toString dropProb ++ "% - Maybe umbrella\n"
        else "☀️ DROP-OFF (8-9am): " ++ toString dropProb ++ "%\n"
      let pickLine :=
        if 70 ≤ pickProb then
          "☔ PICKUP (" ++ pickTime ++ "): " ++ toString pickProb ++ "% - Umbrella!"
        else if 30 ≤ pickProb then
          "🌦️ PICKUP (" ++ pickTime ++ "): " ++ toString pickProb ++ "% - Maybe umbrella"
        else "☀️ PICKUP (" ++ pickTime ++ "): " ++ toString pickProb ++ "%"
      dropLine ++ pickLine

/-- One row of buildRainTable: the weekend branch writes a fixed "--" row,
the weekday branch derives both probabilities and their icons. -/
def rainRow (day : RainForecast) : String :=
  let weekday := goWeekday day.Date
  if weekday = 6 ∨ weekday = 0 then
    formatMon02Jan day.Date ++ " | " ++ padLeft 4 (toString day.PrecipProb) ++
      "% |  --  |  -- \n"
  else
    let dropProb := getHourProb day 8 9
    let pickProb := getPickupProb day weekday
    let dropIcon := if 30 ≤ dropProb then " ☔" else "   "
    let pickIcon := if 30 ≤ pickProb then " ☔" else "   "
    formatMon02Jan day.Date ++ " | " ++ padLeft 4 (toString day.PrecipProb) ++
      "% |" ++ dropIcon ++ " |" ++ pickIcon ++ "\n"

/-- buildRainTable from the agent. -/
def buildRainTable (days : List RainForecast) : String :=
  "Date       | Rain% | Drop | Pick\n" ++
    "-----------+-------+------+------\n" ++
    String.join (days.map rainRow)

/-! ## Cycle runners (doWindCheck / doRainCheck) -/

/-- The externally visible actions of one cycle, in program order. -/
inductive Effect where
  | log (line : String)
  | summarize (prompt : String)
  | notify (msg : String)
deriving DecidableEq

/-- formatTelegramTable: wrap the table in a Markdown code block. -/
def formatTelegramTable (table : String) : String :=
  "```\n" ++ table ++ "```"

/-- The prompt doWindCheck builds for the summarizer. -/
def windPrompt (loc analysis report : String) : String :=
  loc ++ " wind forecast. Easterly wind = planes overhead (✈️).\n\n" ++
    analysis ++ "\n" ++ report ++
    "\nSummarize briefly: how many easterly days and when does wind change direction?"

/-- The prompt doRainCheck builds for the summarizer. -/
def rainPrompt (loc schoolRun report : String) : String :=
  loc ++ " 7-day rain forecast. School run is 8-9am.\n\nTODAY: " ++
    schoolRun ++ "\n\n" ++ report ++
    "\nBrief friendly summary: will it rain during school run today? Any rainy days this week?"

/-- The results the two external collaborators of a wind cycle return:
the forecast fetch and the summarizer call (keyed by the prompt). -/
structure WindOracle where
  fetch : Except String (List ForecastDay)
  gen : String → Except String String

structure RainOracle where
  fetch : Except String (List RainForecast)
  gen : String → Except String String

/-- doWindCheck from the agent: fetch, analyze, format, summarize with
fallback, hand the message to the notifier. A fetch error aborts the cycle
after logging. -/
def doWindCheck (loc : String) (o : WindOracle) : List Effect :=
  match o.fetch with
  | .error e => [.log ("fetch wind forecast: " ++ e ++ "\n")]
  | .ok forecast =>
    let report := buildForecastTable forecast
    let analysis := buildEasterlyAnalysis forecast
    let line := "\n🛫 " ++ toString forecast.length ++ "-day " ++ loc ++
      " wind forecast:\n" ++ report ++ analysis ++ "\n"
    let prompt := windPrompt loc analysis report
    let msg0 := analysis ++ "\n" ++ formatTelegramTable report
    let msg :=
      match o.gen prompt with
      | .ok summary => msg0 ++ "\n" ++ summary
      | .error _ => msg0
    [.log line, .summarize prompt, .notify msg]

/-- doRainCheck from the agent, same shape as doWindCheck. -/
def doRainCheck (loc : String) (o : RainOracle) : List Effect :=
  match o.fetch with
  | .error e => [.log ("fetch rain forecast: " ++ e ++ "\n")]
  | .ok forecast =>
    let report := buildRainTable forecast
    let schoolRun := analyzeSchoolRun forecast
    let line := "\n🌧️ " ++ toString forecast.length ++ "-day " ++ loc ++
      " rain forecast:\n" ++ report ++ schoolRun ++ "\n"
    let prompt := rainPrompt loc schoolRun report
    let msg0 := schoolRun ++ "\n" ++ formatTelegramTable report
    let msg :=
      match o.gen prompt with
      | .ok summary => msg0 ++ "\n" ++ summary
      | .error _ => msg0
    [.log line, .summarize prompt, .notify msg]

/-! ## Clock arithmetic and the periodic loops (runWindCheck / runRainCheck)

Instants are ℤ minutes of absolute time. A timezone is its offset step
function: offset before minutes before the single transition instant
switch, offset after from switch on. UTC is the constant zone ⟨0, 0, 0⟩;
Europe/London around one DST change is ⟨0, 60, switch⟩ (spring) or
⟨60, 0, switch⟩ (autumn). -/

structure Timezone where
  before : ℤ
  after : ℤ
  switch : ℤ

/-- Offset of the zone at absolute minute t (the lookup of the Go time
package). -/
def offAt (tz : Timezone) (t : ℤ) : ℤ :=
  if t < tz.switch then tz.before else tz.after

/-- time.Date for a wall-clock minute count lmin (day * 1440 + hour * 60)
in zone tz: the Go algorithm first assumes the offset at the pseudo
instant lmin, then, when subtracting that offset lands outside the zone
interval the lookup came from, re-looks the offset up just beyond that
interval. -/
def goDate (tz : Timezone) (lmin : ℤ) : ℤ :=
  if offAt tz lmin = 0 then lmin
  else if lmin < tz.switch then
    (if tz.switch ≤ lmin - offAt tz lmin then lmin - tz.after
     else lmin - offAt tz lmin)
  else
    (if lmin - offAt tz lmin < tz.switch then lmin - tz.before
     else lmin - offAt tz lmin)

/-- The next-trigger computation both periodic loops perform each
iteration: candidate = today (in tz) at hour:00 in tz; if now is not
strictly before the candidate, add a fixed 24 h of absolute time. -/
def nextTrigger (tz : Timezone) (hour now : ℤ) : ℤ :=
  if now < goDate tz (((now + offAt tz now) / 1440) * 1440 + hour * 60)
  then goDate tz (((now + offAt tz now) / 1440) * 1440 + hour * 60)
  else goDate tz (((now + offAt tz now) / 1440) * 1440 + hour * 60) + 1440

/-- Calendar day (in tz) an absolute instant falls on. -/
def localDay (tz : Timezone) (t : ℤ) : ℤ := (t + offAt tz t) / 1440

/-- Wall-clock minute of day (in tz) of an absolute instant. -/
def localMinuteOfDay (tz : Timezone) (t : ℤ) : ℤ := (t + offAt tz t) % 1440

/-- The for loop of runWindCheck / runRainCheck after the initial cycle:
at iteration k the select either observes the cancelled context and
returns ctx.Err (the cancellation reason), or the timer fires and cycle k
runs. fuel bounds how many iterations we observe; none means the loop is
still running. -/
def checkLoop (cycle : ℕ → List Effect) (cancelled : ℕ → Bool)
    (reason : String) : ℕ → ℕ → List Effect × Option String
  | _, 0 => ([], none)
  | k, fuel + 1 =>
    if cancelled k then ([], some reason)
    else
      let r := checkLoop cycle cancelled reason (k + 1) fuel
      (cycle k ++ r.1, r.2)

/-- runWindCheck: one cycle immediately on startup, then the loop. -/
def runWindCheck (loc : String) (oracle : ℕ → WindOracle)
    (cancelled : ℕ → Bool) (reason : String) (fuel : ℕ) :
    List Effect × Option String :=
  let r := checkLoop (fun k => doWindCheck loc (oracle k)) cancelled reason 1 fuel
  (doWindCheck loc (oracle 0) ++ r.1, r.2)

/-- runRainCheck: one cycle immediately on startup, then the loop. -/
def runRainCheck (loc : String) (oracle : ℕ → RainOracle)
    (cancelled : ℕ → Bool) (reason : String) (fuel : ℕ) :
    List Effect × Option String :=
  let r := checkLoop (fun k => doRainCheck loc (oracle k)) cancelled reason 1 fuel
  (doRainCheck loc (oracle 0) ++ r.1, r.2)

/-! ## The agent constructor (New) -/

/-- Config of the dual agent; the two weather clients and the Ollama
client are capability handles with no data relevant to any claim and are
omitted from the embedding. -/
structure Config where
  WindLocation : String
  WindDays : ℤ
  WindHour : ℤ
  RainLocation : String
  RainDays : ℤ
  RainHour : ℤ
  TelegramToken : String
  TelegramChatID : String

/-- New from the agent: defaulting of day counts and trigger hours. The
agent stores the adjusted config; we return it directly. -/
def New (cfg : Config) : Config :=
  let cfg := if cfg.WindDays ≤ 0 then { cfg with WindDays := 15 } else cfg
  let cfg := if cfg.RainDays ≤ 0 then { cfg with RainDays := 7 } else cfg
  let cfg := if cfg.WindHour = 0 then { cfg with WindHour := 10 } else cfg
  let cfg := if cfg.RainHour = 0 then { cfg with RainHour := 8 } else cfg
  cfg

/-! ## Specification-side definitions (used to compare against the code)

Each definition below follows the wording of the specification, to be
compared with the corresponding definition translated from the source. -/

/-- Modelled from the spec: normalize degrees into [0,360) — the exact
mathematical reduction modulo 360 of the (real-valued) degree reading. -/
def specNormalize (deg : ℚ) : ℚ := deg - 360 * ⌊deg / 360⌋

/-- Modelled from the spec: drop-off probability = maximum of the
MorningRainProb entries at indices 2 and 3, falling back to PrecipProb
when the array is empty or that maximum is exactly 0. -/
def dropOffSpec (day : RainForecast) : ℤ :=
  if day.MorningRainProb = [] then day.PrecipProb
  else
    let m := ((day.MorningRainProb.drop 2).take 2).foldl max 0
    if m = 0 then day.PrecipProb else m

/-- Modelled from the spec: Wednesday pickup = maximum of AfternoonProb
entries at indices 0 and 1, with the same zero fallback. -/
def pickupWedSpec (day : RainForecast) : ℤ :=
  if day.AfternoonProb = [] then day.PrecipProb
  else
    let m := (day.AfternoonProb.take 2).foldl max 0
    if m = 0 then day.PrecipProb else m

/-- Modelled from the spec: pickup on every other weekday = maximum of
AfternoonProb entries at indices 2 and 3, with the same zero fallback. -/
def pickupOtherSpec (day : RainForecast) : ℤ :=
  if day.AfternoonProb = [] then day.PrecipProb
  else
    let m := ((day.AfternoonProb.drop 2).take 2).foldl max 0
    if m = 0 then day.PrecipProb else m

/-- Modelled from the spec: number of Easterly days. -/
def specEastCount (days : List ForecastDay) : ℕ :=
  (days.filter (fun d => isEasterly d.WindDirMean)).length

/-- Modelled from the spec: number of Westerly days. -/
def specWestCount (days : List ForecastDay) : ℕ :=
  (days.filter (fun d => !isEasterly d.WindDirMean)).length

/-- Modelled from the spec: Easterly if eastCount > westCount, Westerly
if westCount > eastCount, Mixed on an exact tie (rendered with the
strings the code prints). -/
def specDominant (days : List ForecastDay) : String :=
  if specWestCount days < specEastCount days then "E ✈️"
  else if specEastCount days < specWestCount days then "W"
  else "Mixed"

/-- The part of checkLoop that determines its return value: the cycles
have no return value, so only the cancellation schedule matters. -/
def cancelResult (cancelled : ℕ → Bool) (reason : String) : ℕ → ℕ → Option String
  | _, 0 => none
  | k, fuel + 1 =>
    if cancelled k then some reason else cancelResult cancelled reason (k + 1) fuel

/-! ## Helper lemmas -/

theorem ifMaxZ (m x : ℤ) : (if m < x then x else m) = max m x := by
  split <;> omega

theorem filterRange23 (k : ℕ) :
    (List.range (k + 4)).filter (fun (i : ℕ) => decide (2 ≤ (i:ℤ) ∧ (i:ℤ) ≤ 3)) = [2, 3] := by
  induction k with
  | zero => rfl
  | succ k ih =>
    have h : ¬(2 ≤ ((k + 4 : ℕ) : ℤ) ∧ ((k + 4 : ℕ) : ℤ) ≤ 3) := by push_cast; omega
    have h2 : k + 1 + 4 = (k + 4) + 1 := by omega
    rw [h2, List.range_succ, List.filter_append, ih]
    simp [h]

theorem filterRange01 (k : ℕ) :
    (List.range (k + 2)).filter (fun (i : ℕ) => decide (0 ≤ (i:ℤ) ∧ (i:ℤ) ≤ 1)) = [0, 1] := by
  induction k with
  | zero => rfl
  | succ k ih =>
    have h : ¬(0 ≤ ((k + 2 : ℕ) : ℤ) ∧ ((k + 2 : ℕ) : ℤ) ≤ 1) := by push_cast; omega
    have h2 : k + 1 + 2 = (k + 2) + 1 := by omega
    rw [h2, List.range_succ, List.filter_append, ih]
    simp [h]

theorem windowMaxZ_23 (l : List ℤ) :
    windowMaxZ l 2 3 = ((l.drop 2).take 2).foldl max 0 := by
  match l with
  | [] => rfl
  | [a] => rfl
  | [a, b] => rfl
  | [a, b, c] =>
    show (if (0:ℤ) < c then c else 0) = max 0 c
    split <;> omega
  | a :: b :: c :: d :: t =>
    have hlen : (a :: b :: c :: d :: t).length = t.length + 4 := by
      simp [List.length_cons]
    unfold windowMaxZ
    rw [hlen, filterRange23]
    show (if (if (0:ℤ) < c then c else 0) < d then d
          else (if (0:ℤ) < c then c else 0)) = max (max 0 c) d
    split_ifs <;> omega

theorem windowMaxZ_01 (l : List ℤ) :
    windowMaxZ l 0 1 = (l.take 2).foldl max 0 := by
  match l with
  | [] => rfl
  | [a] =>
    show (if (0:ℤ) < a then a else 0) = max 0 a
    split <;> omega
  | a :: b :: t =>
    have hlen : (a :: b :: t).length = t.length + 2 := by
      simp [List.length_cons]
    unfold windowMaxZ
    rw [hlen, filterRange01]
    show (if (if (0:ℤ) < a then a else 0) < b then b
          else (if (0:ℤ) < a then a else 0)) = max (max 0 a) b
    split_ifs <;> omega

theorem countEasterly_foldl (days : List ForecastDay) : ∀ c : ℕ,
    days.foldl (fun c d => if isEasterly d.WindDirMean then c + 1 else c) c =
      c + specEastCount days := by
  induction days with
  | nil => intro c; simp [specEastCount]
  | cons d t ih =>
    intro c
    by_cases h : isEasterly d.WindDirMean <;>
      (simp [specEastCount, List.filter_cons, h, ih]; try omega)

theorem countEasterly_eq (days : List ForecastDay) :
    countEasterlyDays days = specEastCount days := by
  rw [countEasterlyDays, countEasterly_foldl]
  omega

theorem eastWest_length (days : List ForecastDay) :
    specEastCount days + specWestCount days = days.length := by
  induction days with
  | nil => rfl
  | cons d t ih =>
    by_cases h : isEasterly d.WindDirMean <;>
      simp [specEastCount, specWestCount, List.filter_cons, h] at * <;> omega

theorem checkLoop_snd (cycle : ℕ → List Effect) (cancelled : ℕ → Bool)
    (reason : String) : ∀ fuel k,
    (checkLoop cycle cancelled reason k fuel).2 = cancelResult cancelled reason k fuel := by
  intro fuel
  induction fuel with
  | zero => intro k; rfl
  | succ fuel ih =>
    intro k
    rw [checkLoop, cancelResult]
    split
    · rfl
    · exact ih (k + 1)

theorem cancelResult_some (cancelled : ℕ → Bool) (reason e : String) :
    ∀ fuel k, cancelResult cancelled reason k fuel = some e →
      e = reason ∧ ∃ j, cancelled j = true := by
  intro fuel
  induction fuel with
  | zero => intro k h; exact absurd h (by rw [cancelResult]; exact Option.noConfusion)
  | succ fuel ih =>
    intro k h
    rw [cancelResult] at h
    by_cases hc : cancelled k = true
    · rw [if_pos hc] at h
      exact ⟨(Option.some.injEq _ _ ▸ h).symm ▸ rfl, k, hc⟩
    · rw [if_neg hc] at h
      exact ih (k + 1) h

theorem cancelResult_none (cancelled : ℕ → Bool) (reason : String)
    (h : ∀ j, cancelled j = false) : ∀ fuel k,
    cancelResult cancelled reason k fuel = none := by
  intro fuel
  induction fuel with
  | zero => intro k; rfl
  | succ fuel ih =>
    intro k
    rw [cancelResult, if_neg (by rw [h k]; exact Bool.false_ne_true), ih (k + 1)]

/-! ## Claims -/

/-- C10: the constructor New replaces a configured trigger hour of 0 by
the default (10 for the wind schedule, 8 for the rain schedule) and
non-positive forecast day counts by 15 (wind) and 7 (rain); consequently
no agent built through New can carry a midnight (hour 0) schedule, and
its day counts are always positive. -/
theorem c10_new_defaults : ∀ cfg : Config,
    ((New cfg).WindDays = if cfg.WindDays ≤ 0 then 15 else cfg.WindDays) ∧
    ((New cfg).RainDays = if cfg.RainDays ≤ 0 then 7 else cfg.RainDays) ∧
    ((New cfg).WindHour = if cfg.WindHour = 0 then 10 else cfg.WindHour) ∧
    ((New cfg).RainHour = if cfg.RainHour = 0 then 8 else cfg.RainHour) ∧
    (New cfg).WindHour ≠ 0 ∧ (New cfg).RainHour ≠ 0 ∧
    0 < (New cfg).WindDays ∧ 0 < (New cfg).RainDays := by
  intro cfg
  simp only [New]
  split_ifs <;> simp_all

/-- C10 witness: a config requesting hour 0 and day count 0 for both
schedules comes back with hours 10 and 8 and day counts 15 and 7. -/
theorem c10_witness :
    (New ⟨"w", 0, 0, "r", 0, 0, "", ""⟩).WindHour = 10 ∧
    (New ⟨"w", 0, 0, "r", 0, 0, "", ""⟩).RainHour = 8 ∧
    (New ⟨"w", 0, 0, "r", 0, 0, "", ""⟩).WindDays = 15 ∧
    (New ⟨"w", 0, 0, "r", 0, 0, "", ""⟩).RainDays = 7 := by
  have h := c10_new_defaults ⟨"w", 0, 0, "r", 0, 0, "", ""⟩
  refine ⟨?_, ?_, ?_, ?_⟩
  · rw [h.2.2.1]; rfl
  · rw [h.2.2.2.1]; rfl
  · rw [h.1]; rfl
  · rw [h.2.1]; rfl

/-- C5: the weekday drop-off probability getHourProb day 8 9 equals the
maximum of the MorningRainProb entries at indices 2 and 3 (hours 8 and
9), falling back to the overall PrecipProb when the array is empty or
that maximum is exactly 0; and [10,20,80,40,5] yields 80. -/
theorem c5_drop_off :
    (∀ day : RainForecast, getHourProb day 8 9 = dropOffSpec day) ∧
    getHourProb ⟨0, 0, [10, 20, 80, 40, 5], []⟩ 8 9 = 80 := by
  constructor
  · intro day
    rw [getHourProb, dropOffSpec]
    rw [show (8:ℤ) - 6 = 2 by norm_num, show (9:ℤ) - 6 = 3 by norm_num,
      windowMaxZ_23]
    simp only [List.length_eq_zero]
  · decide

/-- C6: the weekday pickup probability uses the Wednesday window (indices
0 and 1 of AfternoonProb, hours 15-16) when the weekday is Wednesday and
the late window (indices 2 and 3, hours 17-18) on every other weekday,
with the same empty/zero fallback to PrecipProb; and [60,10,5,5] yields
60 on a Wednesday and 5 on a Thursday. -/
theorem c6_pickup :
    (∀ day : RainForecast, getPickupProb day 3 = pickupWedSpec day) ∧
    (∀ (day : RainForecast) (wd : ℤ), wd ≠ 3 →
      getPickupProb day wd = pickupOtherSpec day) ∧
    getPickupProb ⟨0, 0, [], [60, 10, 5, 5]⟩ 3 = 60 ∧
    getPickupProb ⟨0, 0, [], [60, 10, 5, 5]⟩ 4 = 5 := by
  refine ⟨?_, ?_, by decide, by decide⟩
  · intro day
    rw [getPickupProb, pickupWedSpec, if_pos rfl, windowMaxZ_01]
    simp only [List.length_eq_zero]
  · intro day wd h
    rw [getPickupProb, pickupOtherSpec, if_neg h, windowMaxZ_23]
    simp only [List.length_eq_zero]

/-- C6 witness: the Thursday instance through the general theorem. -/
theorem c6_witness : getPickupProb ⟨0, 0, [], [60, 10, 5, 5]⟩ 4 = 5 := by
  rw [c6_pickup.2.1 ⟨0, 0, [], [60, 10, 5, 5]⟩ 4 (by decide)]
  decide

/-- C8: buildEasterlyAnalysis reports dominant = Easterly exactly when
the Easterly day count strictly exceeds the Westerly day count, Westerly
when the Westerly count strictly exceeds the Easterly count, and Mixed on
an exact tie; the empty sequence has both counts 0 and is Mixed. -/
theorem c8_dominant : ∀ days : List ForecastDay,
    (buildEasterlyAnalysis days =
      "Dominant: " ++ specDominant days ++ " | East: " ++
        toString (specEastCount days) ++ " days | West: " ++
        toString (specWestCount days) ++ " days\n") ∧
    specEastCount ([] : List ForecastDay) = 0 ∧
    specWestCount ([] : List ForecastDay) = 0 ∧
    specDominant ([] : List ForecastDay) = "Mixed" := by
  intro days
  have hw : days.length - countEasterlyDays days = specWestCount days := by
    rw [countEasterly_eq]
    have := eastWest_length days
    omega
  refine ⟨?_, rfl, rfl, rfl⟩
  rw [buildEasterlyAnalysis, specDominant, countEasterly_eq] at *
  rw [hw]

theorem runWindCheck_snd (loc : String) (oracle : ℕ → WindOracle)
    (cancelled : ℕ → Bool) (reason : String) (fuel : ℕ) :
    (runWindCheck loc oracle cancelled reason fuel).2 =
      cancelResult cancelled reason 1 fuel := by
  simp only [runWindCheck]
  rw [checkLoop_snd]

theorem runRainCheck_snd (loc : String) (oracle : ℕ → RainOracle)
    (cancelled : ℕ → Bool) (reason : String) (fuel : ℕ) :
    (runRainCheck loc oracle cancelled reason fuel).2 =
      cancelResult cancelled reason 1 fuel := by
  simp only [runRainCheck]
  rw [checkLoop_snd]

/-- C3: a cycle whose forecast fetch errors only logs the error: it emits
no summarization and no notification, the whole cycle is the single log
line (for the wind and the rain cycle alike), and the owning loop is
unaffected: the value the loop returns is the same whatever the cycles
(and in particular failing fetches) produced. -/
theorem c3_fetch_abort :
    (∀ (loc e : String) (gen : String → Except String String),
      doWindCheck loc ⟨Except.error e, gen⟩ =
        [Effect.log ("fetch wind forecast: " ++ e ++ "\n")]) ∧
    (∀ (loc e msg : String) (gen : String → Except String String),
      Effect.notify msg ∉ doWindCheck loc ⟨Except.error e, gen⟩) ∧
    (∀ (loc e p : String) (gen : String → Except String String),
      Effect.summarize p ∉ doWindCheck loc ⟨Except.error e, gen⟩) ∧
    (∀ (loc e : String) (gen : String → Except String String),
      doRainCheck loc ⟨Except.error e, gen⟩ =
        [Effect.log ("fetch rain forecast: " ++ e ++ "\n")]) ∧
    (∀ (cyc cyc' : ℕ → List Effect) (cancelled : ℕ → Bool) (reason : String)
      (k fuel : ℕ),
      (checkLoop cyc cancelled reason k fuel).2 =
        (checkLoop cyc' cancelled reason k fuel).2) := by
  refine ⟨fun _ _ _ => rfl, ?_, ?_, fun _ _ _ => rfl, ?_⟩
  · intro loc e msg gen
    simp [doWindCheck]
  · intro loc e p gen
    simp [doWindCheck]
  · intro cyc cyc' cancelled reason k fuel
    rw [checkLoop_snd, checkLoop_snd]

/-- C3 witness: a concrete failed wind fetch sends nothing. -/
theorem c3_witness :
    Effect.notify "m" ∉ doWindCheck "L" ⟨Except.error "boom", fun _ => Except.ok "s"⟩ :=
  c3_fetch_abort.2.1 "L" "boom" "m" (fun _ => Except.ok "s")

/-- C4: on a cycle that reaches summarization, a failing summarizer makes
the notified message exactly analysis text plus formatted table (no LLM
section), and a succeeding summarizer makes it exactly analysis text plus
formatted table plus the summary — for the wind and the rain cycle. -/
theorem c4_fallback :
    (∀ (loc : String) (forecast : List ForecastDay)
      (gen : String → Except String String) (err : String),
      gen (windPrompt loc (buildEasterlyAnalysis forecast) (buildForecastTable forecast)) =
        Except.error err →
      doWindCheck loc ⟨Except.ok forecast, gen⟩ =
        [Effect.log ("\n🛫 " ++ toString forecast.length ++ "-day " ++ loc ++
            " wind forecast:\n" ++ buildForecastTable forecast ++
            buildEasterlyAnalysis forecast ++ "\n"),
         Effect.summarize (windPrompt loc (buildEasterlyAnalysis forecast)
            (buildForecastTable forecast)),
         Effect.notify (buildEasterlyAnalysis forecast ++ "\n" ++
            formatTelegramTable (buildForecastTable forecast))]) ∧
    (∀ (loc : String) (forecast : List ForecastDay)
      (gen : String → Except String String) (s : String),
      gen (windPrompt loc (buildEasterlyAnalysis forecast) (buildForecastTable forecast)) =
        Except.ok s →
      doWindCheck loc ⟨Except.ok forecast, gen⟩ =
        [Effect.log ("\n🛫 " ++ toString forecast.length ++ "-day " ++ loc ++
            " wind forecast:\n" ++ buildForecastTable forecast ++
            buildEasterlyAnalysis forecast ++ "\n"),
         Effect.summarize (windPrompt loc (buildEasterlyAnalysis forecast)
            (buildForecastTable forecast)),
         Effect.notify (buildEasterlyAnalysis forecast ++ "\n" ++
            formatTelegramTable (buildForecastTable forecast) ++ "\n" ++ s)]) ∧
    (∀ (loc : String) (forecast : List RainForecast)
      (gen : String → Except String String) (err : String),
      gen (rainPrompt loc (analyzeSchoolRun forecast) (buildRainTable forecast)) =
        Except.error err →
      doRainCheck loc ⟨Except.ok forecast, gen⟩ =
        [Effect.log ("\n🌧️ " ++ toString forecast.length ++ "-day " ++ loc ++
            " rain forecast:\n" ++ buildRainTable forecast ++
            analyzeSchoolRun forecast ++ "\n"),
         Effect.summarize (rainPrompt loc (analyzeSchoolRun forecast)
            (buildRainTable forecast)),
         Effect.notify (analyzeSchoolRun forecast ++ "\n" ++
            formatTelegramTable (buildRainTable forecast))]) ∧
    (∀ (loc : String) (forecast : List RainForecast)
      (gen : String → Except String String) (s : String),
      gen (rainPrompt loc (analyzeSchoolRun forecast) (buildRainTable forecast)) =
        Except.ok s →
      doRainCheck loc ⟨Except.ok forecast, gen⟩ =
        [Effect.log ("\n🌧️ " ++ toString forecast.length ++ "-day " ++ loc ++
            " rain forecast:\n" ++ buildRainTable forecast ++
            analyzeSchoolRun forecast ++ "\n"),
         Effect.summarize (rainPrompt loc (analyzeSchoolRun forecast)
            (buildRainTable forecast)),
         Effect.notify (analyzeSchoolRun forecast ++ "\n" ++
            formatTelegramTable (buildRainTable forecast) ++ "\n" ++ s)]) := by
  refine ⟨?_, ?_, ?_, ?_⟩ <;> intro loc forecast gen x h <;> simp [doWindCheck, doRainCheck, h]

/-- C4 witness: a concrete failed summarization falls back to the
two-section message. -/
theorem c4_witness :
    doWindCheck "L" ⟨Except.ok [], fun _ => Except.error "down"⟩ =
      [Effect.log ("\n🛫 " ++ toString (0:ℕ) ++ "-day L wind forecast:\n" ++
          buildForecastTable [] ++ buildEasterlyAnalysis [] ++ "\n"),
       Effect.summarize (windPrompt "L" (buildEasterlyAnalysis [])
          (buildForecastTable [])),
       Effect.notify (buildEasterlyAnalysis [] ++ "\n" ++
          formatTelegramTable (buildForecastTable []))] := by
  have h := c4_fallback.1 "L" [] (fun _ => Except.error "down") "down" rfl
  simpa using h

/-- C7: the periodic loops return a value only when the cancellation
signal fires, and the value returned is the cancellation reason; if the
signal never fires the loop never returns, whatever the cycle oracles
(fetch, summarize, notify outcomes) do. -/
theorem c7_cancel_only :
    (∀ (loc : String) (oracle : ℕ → WindOracle) (cancelled : ℕ → Bool)
      (reason : String) (fuel : ℕ) (e : String),
      (runWindCheck loc oracle cancelled reason fuel).2 = some e →
      e = reason ∧ ∃ k, cancelled k = true) ∧
    (∀ (loc : String) (oracle : ℕ → WindOracle) (cancelled : ℕ → Bool)
      (reason : String) (fuel : ℕ), (∀ k, cancelled k = false) →
      (runWindCheck loc oracle cancelled reason fuel).2 = none) ∧
    (∀ (loc : String) (oracle : ℕ → RainOracle) (cancelled : ℕ → Bool)
      (reason : String) (fuel : ℕ) (e : String),
      (runRainCheck loc oracle cancelled reason fuel).2 = some e →
      e = reason ∧ ∃ k, cancelled k = true) ∧
    (∀ (loc : String) (oracle : ℕ → RainOracle) (cancelled : ℕ → Bool)
      (reason : String) (fuel : ℕ), (∀ k, cancelled k = false) →
      (runRainCheck loc oracle cancelled reason fuel).2 = none) := by
  refine ⟨?_, ?_, ?_, ?_⟩
  · intro loc oracle cancelled reason fuel e h
    rw [runWindCheck_snd] at h
    exact cancelResult_some cancelled reason e fuel 1 h
  · intro loc oracle cancelled reason fuel h
    rw [runWindCheck_snd]
    exact cancelResult_none cancelled reason h fuel 1
  · intro loc oracle cancelled reason fuel e h
    rw [runRainCheck_snd] at h
    exact cancelResult_some cancelled reason e fuel 1 h
  · intro loc oracle cancelled reason fuel h
    rw [runRainCheck_snd]
    exact cancelResult_none cancelled reason h fuel 1

/-- C7 witness: with the signal fired the loop returns the reason; with
the signal never firing it returns nothing within two iterations. -/
theorem c7_witness :
    ("stop" = "stop" ∧ ∃ k, (fun (_ : ℕ) => true) k = true) ∧
    (runWindCheck "L" (fun _ => ⟨Except.ok [], fun _ => Except.error "x"⟩)
      (fun _ => false) "stop" 2).2 = none := by
  constructor
  · exact c7_cancel_only.1 "L" (fun _ => ⟨Except.ok [], fun _ => Except.error "x"⟩)
      (fun _ => true) "stop" 1 "stop" rfl
  · exact c7_cancel_only.2.1 "L" (fun _ => ⟨Except.ok [], fun _ => Except.error "x"⟩)
      (fun _ => false) "stop" 2 (fun _ => rfl)

/-- C9: a rain-forecast day falling on a Saturday or Sunday is always
reported as no school: the today summary is the fixed weekend string, the
table row is the fixed double-dash row, and neither depends on the
probability fields (PrecipProb aside, which the table row always
prints). -/
theorem c9_weekend :
    (∀ (day : RainForecast) (rest : List RainForecast),
      (goWeekday day.Date = 6 ∨ goWeekday day.Date = 0) →
      analyzeSchoolRun (day :: rest) = "📅 Weekend - no school!") ∧
    (∀ day : RainForecast, (goWeekday day.Date = 6 ∨ goWeekday day.Date = 0) →
      rainRow day = formatMon02Jan day.Date ++ " | " ++
        padLeft 4 (toString day.PrecipProb) ++ "% |  --  |  -- \n") ∧
    (∀ (day : RainForecast) (m a : List ℤ),
      (goWeekday day.Date = 6 ∨ goWeekday day.Date = 0) →
      rainRow { day with MorningRainProb := m, AfternoonProb := a } = rainRow day) := by
  refine ⟨?_, ?_, ?_⟩
  · intro day rest h
    rcases h with h | h <;> simp [analyzeSchoolRun, h]
  · intro day h
    rcases h with h | h <;> simp [rainRow, h]
  · intro day m a h
    rcases h with h | h <;> simp [rainRow, h]

/-- C9 witness: a Saturday (epoch day 2) with high rain probabilities is
still reported as no school. -/
theorem c9_witness :
    analyzeSchoolRun [⟨2, 95, [90, 90, 90, 90, 90], [90, 90, 90, 90]⟩] =
      "📅 Weekend - no school!" :=
  c9_weekend.1 ⟨2, 95, [90, 90, 90, 90, 90], [90, 90, 90, 90]⟩ [] (Or.inl (by decide))

/-- C2 counterexample: the classification rule stated over the
mathematically normalized degree value fails at 0.5 degrees: its
normalization into [0,360) is 0.5, strictly between 0 and 180, yet
isEasterly classifies 0.5 as Westerly, because the code truncates
int(deg+360) before reducing modulo 360. -/
theorem c2_counterexample :
    isEasterly (1/2) = false ∧
    0 < specNormalize (1/2) ∧ specNormalize (1/2) < 180 := by
  have hf : ⌊((1:ℚ)/2 + 360)⌋ = 360 := by
    rw [Int.floor_eq_iff]
    constructor <;> norm_num
  have hn : goNormDeg (1/2) = 0 := by
    rw [goNormDeg, goTrunc, if_pos (by norm_num), hf]
    decide
  have hs : specNormalize (1/2) = 1/2 := by
    rw [specNormalize, show ((1:ℚ)/2)/360 = 1/720 by norm_num,
      show ⌊(1:ℚ)/720⌋ = 0 by rw [Int.floor_eq_iff]; constructor <;> norm_num]
    norm_num
  refine ⟨?_, ?_, ?_⟩
  · rw [isEasterly, hn]
    decide
  · rw [hs]; norm_num
  · rw [hs]; norm_num

/-- C2 (amended): for degree values in the data-model range [0,360], the
day is Easterly exactly when the degree is at least 1 and strictly below
180 — the truncated normalization int(deg+360) % 360 lies strictly
between 0 and 180 — and degToCompass agrees with isEasterly. In
particular 0, 180, 359 (and every fractional value below 1) are Westerly
while 90 and 179.9 are Easterly. -/
theorem c2_easterly_rule (deg : ℚ) (h0 : 0 ≤ deg) (h1 : deg ≤ 360) :
    (isEasterly deg = true ↔ (1 ≤ deg ∧ deg < 180)) ∧
    (degToCompass deg = "E" ↔ isEasterly deg = true) := by
  have hfl0 : (0:ℤ) ≤ ⌊deg⌋ := Int.floor_nonneg.mpr h0
  have hfl1 : ⌊deg⌋ ≤ 360 := by
    have h360 : ⌊(360:ℚ)⌋ = 360 := by norm_num
    calc ⌊deg⌋ ≤ ⌊(360:ℚ)⌋ := Int.floor_le_floor h1
    _ = 360 := h360
  have hadd : ⌊deg + 360⌋ = ⌊deg⌋ + 360 := by
    exact_mod_cast Int.floor_add_int deg 360
  have htr : goTrunc (deg + 360) = ⌊deg⌋ + 360 := by
    rw [goTrunc, if_pos (by linarith), hadd]
  have hnorm : goNormDeg deg = (⌊deg⌋ + 360) % 360 := by
    rw [goNormDeg, htr, Int.tmod_eq_emod (by omega) (by norm_num)]
  have key : isEasterly deg = true ↔ (1 ≤ ⌊deg⌋ ∧ ⌊deg⌋ < 180) := by
    rw [isEasterly, decide_eq_true_eq, hnorm]
    omega
  have h3 : (1 ≤ ⌊deg⌋) ↔ (1 ≤ deg) := by
    rw [Int.le_floor]
    norm_num
  have h4 : (⌊deg⌋ < 180) ↔ (deg < 180) := by
    rw [Int.floor_lt]
    norm_num
  constructor
  · rw [key, h3, h4]
  · by_cases hc : 0 < goNormDeg deg ∧ goNormDeg deg < 180 <;>
      simp [degToCompass, isEasterly, hc]

/-- C2 witness: 90 degrees is Easterly, through the amended rule. -/
theorem c2_witness : isEasterly 90 = true :=
  (c2_easterly_rule 90 (by norm_num) (by norm_num)).1.mpr ⟨by norm_num, by norm_num⟩

/-- C1 counterexample: in a London-like zone that springs forward
(offset 0 before minute 1500, offset 60 after — the transition at 1:00
local time of day 1), with the trigger at hour 8 and now = minute 540
(9:00 local on day 0, past the 8:00 candidate), the code returns
candidate + 24h = minute 1920, which falls on the next calendar day but
at wall-clock minute 540 (9:00), not at the schedule wall-clock time
8:00 = minute 480: the fixed 24h offset does not absorb the DST
transition. -/
theorem c1_counterexample :
    nextTrigger ⟨0, 60, 1500⟩ 8 540 = 1920 ∧
    goDate ⟨0, 60, 1500⟩ (0 * 1440 + 8 * 60) ≤ 540 ∧
    localDay ⟨0, 60, 1500⟩ 540 = 0 ∧
    localMinuteOfDay ⟨0, 60, 1500⟩ 540 = 540 ∧
    localDay ⟨0, 60, 1500⟩ 1920 = 1 ∧
    localMinuteOfDay ⟨0, 60, 1500⟩ 1920 = 540 ∧
    decide (localMinuteOfDay ⟨0, 60, 1500⟩ 1920 = 8 * 60) = false := by
  decide

/-- C1 (amended): for trigger hours 1..23 (the constructor never produces
hour 0) and any zone whose single offset change is at most one hour in
either direction, the computed next trigger is strictly after now and at
most 24 hours after now; when now is at or past the candidate, the result
is the candidate plus a fixed 24 hours of absolute time — which is the
next calendar day at the same wall-clock time whenever no offset
transition intervenes (in particular always in a constant-offset zone
such as UTC), but shifts by the offset change across a DST transition. -/
theorem c1_next_trigger (tz : Timezone) (hour now : ℤ)
    (hh1 : 1 ≤ hour) (hh2 : hour ≤ 23)
    (hd1 : tz.before - tz.after ≤ 60) (hd2 : tz.after - tz.before ≤ 60) :
    now < nextTrigger tz hour now ∧
    nextTrigger tz hour now ≤ now + 1440 ∧
    (goDate tz (((now + offAt tz now) / 1440) * 1440 + hour * 60) ≤ now →
      nextTrigger tz hour now =
        goDate tz (((now + offAt tz now) / 1440) * 1440 + hour * 60) + 1440) ∧
    (tz.before = tz.after →
      localMinuteOfDay tz (nextTrigger tz hour now) = hour * 60) := by
  rcases tz with ⟨b, a, s⟩
  dsimp only at hd1 hd2
  simp only [nextTrigger, goDate, offAt, localMinuteOfDay]
  split_ifs <;> omega

/-- C1 witness: in UTC with trigger hour 10, from now = 0 (midnight
1970-01-01) the next trigger is strictly later, within 24 hours, and at
wall-clock minute 600 (10:00). -/
theorem c1_witness :
    (0:ℤ) < nextTrigger ⟨0, 0, 0⟩ 10 0 ∧
    nextTrigger ⟨0, 0, 0⟩ 10 0 ≤ 0 + 1440 ∧
    localMinuteOfDay ⟨0, 0, 0⟩ (nextTrigger ⟨0, 0, 0⟩ 10 0) = 10 * 60 := by
  have h := c1_next_trigger ⟨0, 0, 0⟩ 10 0 (by norm_num) (by norm_num)
    (by norm_num) (by norm_num)
  exact ⟨h.1, h.2.1, h.2.2.2 rfl⟩
